import Mathlib

/-!
# Verification of the mcp-neo4j test_api scripts

Shallow embedding of `servers/mcp-neo4j-cypher/test_api/start_server.py` and
`servers/mcp-neo4j-cypher/test_api/test_auth.py`.

Modelling conventions:
* An environment (the process environment, or the parsed key=value content of a
  `.env` file) is a function `String → Option String`; `none` means the key is
  absent.
* `load_dotenv` (python-dotenv, default `override=False`) never overrides a
  variable already present in the process environment; after it runs,
  `os.getenv k` returns the ambient value when present and the file value
  otherwise.  This merged view is `mergedGetenv`.
* Python truthiness of an optional string (`if not v`) is `truthy`:
  `None` and the empty string are falsy.
* The key=value text written by `env_path.write_text` is modelled as an
  association list in the order of the f-string template.
* `sys.exit`, uncaught exceptions and subprocess outcomes are modelled by
  explicit result types; printing is not modelled.
-/

/-- An environment: process environment or parsed `.env` file content. -/
def EnvMap : Type := String → Option String

/-- `os.getenv k` after `load_dotenv(path)` with the default `override=False`:
the ambient process environment wins over the file. -/
def mergedGetenv (ambient file : EnvMap) (k : String) : Option String :=
  match ambient k with
  | some v => some v
  | none => file k

/-- Python truthiness of an optional string: `None` and `""` are falsy. -/
def truthy : Option String → Bool
  | none => false
  | some s => !(s == "")

/-- Lookup in a key=value association list (first binding wins). -/
def lookupKV (m : List (String × String)) (k : String) : Option String :=
  (m.find? (fun p => p.1 == k)).map (fun p => p.2)

/-- The f-string template written by `update_env_with_api_key`
(start_server.py lines 53–67): URI, username, password and database are
interpolated; `NEO4J_TRANSPORT`, `NEO4J_MCP_SERVER_HOST`,
`NEO4J_MCP_SERVER_PORT` and `NEO4J_MCP_SERVER_PATH` are fixed literals;
`NEO4J_API_KEY` is the freshly generated key. -/
def writtenEnvFile (uri username password database api_key : String) :
    List (String × String) :=
  [("NEO4J_URI", uri),
   ("NEO4J_USERNAME", username),
   ("NEO4J_PASSWORD", password),
   ("NEO4J_DATABASE", database),
   ("NEO4J_TRANSPORT", "http"),
   ("NEO4J_MCP_SERVER_HOST", "127.0.0.1"),
   ("NEO4J_MCP_SERVER_PORT", "8001"),
   ("NEO4J_MCP_SERVER_PATH", "/mcp/"),
   ("NEO4J_API_KEY", api_key)]

/-- Outcome of `update_env_with_api_key`: either the process aborted via
`sys.exit code` before writing, or the new file content was written. -/
inductive ProvisionResult
  | exited (code : Nat)
  | wrote (file : List (String × String))
deriving DecidableEq

/-- `update_env_with_api_key(api_key, env_path)` (start_server.py lines
31–69).  `priorFile` is `none` when `env_path` does not exist; otherwise it is
the parsed content of the prior `.env` file.  `ambient` is the invoking
process environment; `load_dotenv(env_path)` merges the file into it without
overriding, so each `os.getenv` reads `mergedGetenv ambient file`. -/
def update_env_with_api_key (api_key : String) (priorFile : Option EnvMap)
    (ambient : EnvMap) : ProvisionResult :=
  match priorFile with
  | none => .exited 1
  | some file =>
    let getenv := fun k => mergedGetenv ambient file k
    let neo4j_uri := getenv "NEO4J_URI"
    let neo4j_username := getenv "NEO4J_USERNAME"
    let neo4j_password := getenv "NEO4J_PASSWORD"
    let neo4j_database := (getenv "NEO4J_DATABASE").getD "neo4j"
    if truthy neo4j_uri && truthy neo4j_username && truthy neo4j_password then
      .wrote (writtenEnvFile (neo4j_uri.getD "") (neo4j_username.getD "")
        (neo4j_password.getD "") neo4j_database api_key)
    else
      .exited 1

/-- The empty process environment. -/
def emptyEnv : EnvMap := fun _ => none

/-- A sample prior `.env` file holding the three required fields and an old
API key. -/
def sampleFile : EnvMap := fun k =>
  if k = "NEO4J_URI" then some "bolt://localhost:7687"
  else if k = "NEO4J_USERNAME" then some "neo4j"
  else if k = "NEO4J_PASSWORD" then some "pass"
  else if k = "NEO4J_API_KEY" then some "oldkey"
  else none

/-! ## Local launcher (`start_server`, start_server.py lines 72–109) -/

/-- The `env_updates` dict of `start_server` (lines 82–92): the eight
configuration keys read back through `os.getenv`, plus `NEO4J_API_KEY` bound
directly to the generated key. -/
def env_updates (api_key : String) (getenv : String → Option String) :
    List (String × Option String) :=
  [("NEO4J_URI", getenv "NEO4J_URI"),
   ("NEO4J_USERNAME", getenv "NEO4J_USERNAME"),
   ("NEO4J_PASSWORD", getenv "NEO4J_PASSWORD"),
   ("NEO4J_DATABASE", getenv "NEO4J_DATABASE"),
   ("NEO4J_TRANSPORT", getenv "NEO4J_TRANSPORT"),
   ("NEO4J_MCP_SERVER_HOST", getenv "NEO4J_MCP_SERVER_HOST"),
   ("NEO4J_MCP_SERVER_PORT", getenv "NEO4J_MCP_SERVER_PORT"),
   ("NEO4J_MCP_SERVER_PATH", getenv "NEO4J_MCP_SERVER_PATH"),
   ("NEO4J_API_KEY", some api_key)]

/-- The environment handed to the spawned server by `start_server` (lines
81–95): a copy of the process environment after `load_dotenv` (so
`mergedGetenv ambient file`), updated with the non-`None` entries of
`env_updates`. -/
def start_server_env (api_key : String) (ambient file : EnvMap) : EnvMap :=
  fun k =>
    match (env_updates api_key (fun q => mergedGetenv ambient file q)).find?
        (fun p => p.1 == k) with
    | some (_, some v) => some v
    | _ => mergedGetenv ambient file k

/-- How the blocking `subprocess.run` of the local launcher ends: the child
exits on its own, or the operator interrupts (Ctrl+C, raising
`KeyboardInterrupt` in the parent). -/
inductive ChildEvent
  | childExited
  | interrupted
deriving DecidableEq

/-- Observable end of the local launcher (lines 101–109): the parent's exit
code and whether the graceful-shutdown message was reported.  `subprocess.run`
is called without `check=True`, so a child exit (of any code) returns
normally and the script ends with exit code 0; `KeyboardInterrupt` is caught,
the shutdown message is printed, and the script also ends with code 0. -/
def start_server_wait : ChildEvent → Nat × Bool
  | .childExited => (0, false)
  | .interrupted => (0, true)

/-! ## Containerized launcher (`start_server_docker`, lines 112–199) -/

/-- Outcome of a `subprocess.run(..., check=True)` child step. -/
inductive CmdOutcome
  | ok
  | calledProcessError (returncode : Nat)
  | fileNotFoundError
  | keyboardInterrupt
deriving DecidableEq

/-- How the whole script terminates: an explicit `sys.exit code` (or a normal
return, code 0), or an uncaught `CalledProcessError` carrying the child's
returncode, which makes the interpreter terminate unsuccessfully. -/
inductive ScriptTermination
  | exited (code : Nat)
  | raisedCalledProcessError (returncode : Nat)
deriving DecidableEq

/-- The process exit code produced by a termination: CPython exits with code 1
when an exception propagates uncaught out of the entry point. -/
def processExitCode : ScriptTermination → Nat
  | .exited c => c
  | .raisedCalledProcessError _ => 1

/-- Control flow of `start_server_docker` around its two child steps.  The
build step (lines 130–144) catches `CalledProcessError` and exits 1 (printing
the child's returncode), and catches `FileNotFoundError` and exits 1 (printing
an install hint).  The run step (lines 196–199) catches only
`KeyboardInterrupt`; a `CalledProcessError` from `check=True` propagates
uncaught. -/
def start_server_docker_flow (build run_step : CmdOutcome) : ScriptTermination :=
  match build with
  | .calledProcessError _ => .exited 1
  | .fileNotFoundError => .exited 1
  | _ =>
    match run_step with
    | .calledProcessError c => .raisedCalledProcessError c
    | _ => .exited 0

/-! ## Loopback rewriting (lines 152–158)

Python's `"pat" in s` and `s.replace(pat, rep)` are embedded on `List Char`:
`hasInfixChars` is the substring test and `replaceFuel` the left-to-right
non-overlapping replacement, with fuel bounded by the string length (each
step consumes at least one character, so the fuel never runs out). -/

/-- Python `pat in s` on character lists: some suffix of `s` starts with
`pat`. -/
def hasInfixChars (pat : List Char) : List Char → Bool
  | [] => pat.isEmpty
  | c :: rest => pat.isPrefixOf (c :: rest) || hasInfixChars pat rest

/-- Python `s.replace(pat, rep)` for a non-empty `pat`, with explicit fuel. -/
def replaceFuel (pat rep : List Char) : Nat → List Char → List Char
  | 0, s => s
  | _ + 1, [] => []
  | fuel + 1, c :: rest =>
    if pat.isPrefixOf (c :: rest) then
      rep ++ replaceFuel pat rep fuel ((c :: rest).drop pat.length)
    else
      c :: replaceFuel pat rep fuel rest

/-- Python `s.replace(pat, rep)` on strings (identity when `pat` is empty is
never exercised: both patterns in the source are non-empty literals). -/
def strReplace (s pat rep : String) : String :=
  match pat.data with
  | [] => s
  | _ :: _ => String.mk (replaceFuel pat.data rep.data (s.data.length + 1) s.data)

/-- Python `pat in s` on strings. -/
def strContains (s pat : String) : Bool :=
  hasInfixChars pat.data s.data

/-- The loopback test of line 154: the URI mentions `localhost` or
`127.0.0.1`. -/
def hasLoopbackRef (u : String) : Bool :=
  strContains u "localhost" || strContains u "127.0.0.1"

/-- Lines 154–156: when the URI (possibly absent) mentions a loopback
address, replace `localhost` and then `127.0.0.1` by
`host.docker.internal`; otherwise pass it through unchanged. -/
def rewriteUriForDocker : Option String → Option String
  | none => none
  | some u =>
    if hasLoopbackRef u then
      some (strReplace (strReplace u "localhost" "host.docker.internal")
        "127.0.0.1" "host.docker.internal")
    else
      some u

/-! ## Probe client (`test_auth.py`, `main`, lines 32–61) -/

/-- First observable action of the probe's `main`: either it prints a message
and returns before any transport or session is constructed, or it constructs
the `StreamableHttpTransport` with the loaded key and proceeds to the network
phase. -/
inductive ProbeAction
  | earlyReturn
  | connectWith (api_key : String)
deriving DecidableEq

/-- `main` of test_auth.py up to the transport construction: return early when
`env_path` does not exist (line 41) or when `os.getenv("NEO4J_API_KEY")` is
falsy after `load_dotenv` (line 49); otherwise build the transport with the
loaded key (line 59). -/
def probe_main (envFile : Option EnvMap) (ambient : EnvMap) : ProbeAction :=
  match envFile with
  | none => .earlyReturn
  | some file =>
    let api_key := mergedGetenv ambient file "NEO4J_API_KEY"
    if truthy api_key then .connectWith (api_key.getD "") else .earlyReturn

/-! ## Schema summary (`test_auth.py`, lines 93–135) -/

/-- One top-level entry of the JSON schema object: the optional `type`
discriminator, the `properties` sub-object (only its key set matters to the
summary) and the optional `count`. -/
structure SchemaEntry where
  type? : Option String
  properties : List String
  count? : Option Nat
deriving DecidableEq

/-- `node_types` (lines 102–104): keys whose entry has `type == "node"`,
in order. -/
def node_types (schema : List (String × SchemaEntry)) : List String :=
  (schema.filter (fun p => p.2.type? == some "node")).map (fun p => p.1)

/-- `rel_types` (lines 105–109): keys whose entry has
`type == "relationship"`, in order. -/
def rel_types (schema : List (String × SchemaEntry)) : List String :=
  (schema.filter (fun p => p.2.type? == some "relationship")).map (fun p => p.1)

/-- The per-entry numbers printed by the summary (lines 116–135):
`len(v.get("properties", {}))` and `v.get("count", "?")`. -/
def entrySummary (e : SchemaEntry) : Nat × Option Nat :=
  (e.properties.length, e.count?)

/-- The JSON result of the spec's probe scenario:
`{"Person": {"type": "node", "properties": {"name": {}}, "count": 5},
  "KNOWS": {"type": "relationship", "properties": {}, "count": 2}}`. -/
def exampleSchema : List (String × SchemaEntry) :=
  [("Person", ⟨some "node", ["name"], some 5⟩),
   ("KNOWS", ⟨some "relationship", [], some 2⟩)]

/-- The eight configuration-file keys the local launcher reads back through
`os.getenv` before overlaying. -/
def configFileKeys : List String :=
  ["NEO4J_URI", "NEO4J_USERNAME", "NEO4J_PASSWORD", "NEO4J_DATABASE",
   "NEO4J_TRANSPORT", "NEO4J_MCP_SERVER_HOST", "NEO4J_MCP_SERVER_PORT",
   "NEO4J_MCP_SERVER_PATH"]

/-- A prior `.env` file with the password missing. -/
def c2File : EnvMap := fun k =>
  if k = "NEO4J_URI" then some "bolt://db:7687"
  else if k = "NEO4J_USERNAME" then some "neo4j"
  else none

/-- A prior `.env` file with the required fields present and the server
settings set to non-default values. -/
def c3File : EnvMap := fun k =>
  if k = "NEO4J_URI" then some "bolt://db:7687"
  else if k = "NEO4J_USERNAME" then some "neo4j"
  else if k = "NEO4J_PASSWORD" then some "pw"
  else if k = "NEO4J_MCP_SERVER_HOST" then some "0.0.0.0"
  else if k = "NEO4J_MCP_SERVER_PORT" then some "9000"
  else if k = "NEO4J_MCP_SERVER_PATH" then some "/other/"
  else none

/-- A process environment binding the datastore URI, shadowing the different
value held by `c10File`. -/
def c10Ambient : EnvMap := fun k =>
  if k = "NEO4J_URI" then some "bolt://from-env:7687" else none

/-- A prior `.env` file with a URI different from the one in `c10Ambient`,
plus the other required fields. -/
def c10File : EnvMap := fun k =>
  if k = "NEO4J_URI" then some "bolt://from-file:7687"
  else if k = "NEO4J_USERNAME" then some "u"
  else if k = "NEO4J_PASSWORD" then some "p"
  else none

/-! ## Helper lemmas -/

lemma truthy_eq_true_iff (o : Option String) :
    truthy o = true ↔ ∃ s, o = some s ∧ s ≠ "" := by
  cases o with
  | none => simp [truthy]
  | some s => simp [truthy]

lemma lookupKV_written_uri (u n p d a : String) :
    lookupKV (writtenEnvFile u n p d a) "NEO4J_URI" = some u := by
  simp [lookupKV, writtenEnvFile, List.find?]

lemma lookupKV_written_username (u n p d a : String) :
    lookupKV (writtenEnvFile u n p d a) "NEO4J_USERNAME" = some n := by
  simp [lookupKV, writtenEnvFile, List.find?]

lemma lookupKV_written_password (u n p d a : String) :
    lookupKV (writtenEnvFile u n p d a) "NEO4J_PASSWORD" = some p := by
  simp [lookupKV, writtenEnvFile, List.find?]

lemma lookupKV_written_database (u n p d a : String) :
    lookupKV (writtenEnvFile u n p d a) "NEO4J_DATABASE" = some d := by
  simp [lookupKV, writtenEnvFile, List.find?]

lemma lookupKV_written_api (u n p d a : String) :
    lookupKV (writtenEnvFile u n p d a) "NEO4J_API_KEY" = some a := by
  simp [lookupKV, writtenEnvFile, List.find?]

lemma start_server_env_other (api_key : String) (ambient file : EnvMap)
    (k : String) (hk : k ≠ "NEO4J_API_KEY") :
    start_server_env api_key ambient file k = mergedGetenv ambient file k := by
  by_cases h1 : k = "NEO4J_URI"
  · subst h1
    cases hm : mergedGetenv ambient file "NEO4J_URI" <;>
      simp [start_server_env, env_updates, List.find?, hm]
  by_cases h2 : k = "NEO4J_USERNAME"
  · subst h2
    cases hm : mergedGetenv ambient file "NEO4J_USERNAME" <;>
      simp [start_server_env, env_updates, List.find?, hm]
  by_cases h3 : k = "NEO4J_PASSWORD"
  · subst h3
    cases hm : mergedGetenv ambient file "NEO4J_PASSWORD" <;>
      simp [start_server_env, env_updates, List.find?, hm]
  by_cases h4 : k = "NEO4J_DATABASE"
  · subst h4
    cases hm : mergedGetenv ambient file "NEO4J_DATABASE" <;>
      simp [start_server_env, env_updates, List.find?, hm]
  by_cases h5 : k = "NEO4J_TRANSPORT"
  · subst h5
    cases hm : mergedGetenv ambient file "NEO4J_TRANSPORT" <;>
      simp [start_server_env, env_updates, List.find?, hm]
  by_cases h6 : k = "NEO4J_MCP_SERVER_HOST"
  · subst h6
    cases hm : mergedGetenv ambient file "NEO4J_MCP_SERVER_HOST" <;>
      simp [start_server_env, env_updates, List.find?, hm]
  by_cases h7 : k = "NEO4J_MCP_SERVER_PORT"
  · subst h7
    cases hm : mergedGetenv ambient file "NEO4J_MCP_SERVER_PORT" <;>
      simp [start_server_env, env_updates, List.find?, hm]
  by_cases h8 : k = "NEO4J_MCP_SERVER_PATH"
  · subst h8
    cases hm : mergedGetenv ambient file "NEO4J_MCP_SERVER_PATH" <;>
      simp [start_server_env, env_updates, List.find?, hm]
  have g1 := Ne.symm h1
  have g2 := Ne.symm h2
  have g3 := Ne.symm h3
  have g4 := Ne.symm h4
  have g5 := Ne.symm h5
  have g6 := Ne.symm h6
  have g7 := Ne.symm h7
  have g8 := Ne.symm h8
  have g9 := Ne.symm hk
  have e1 : ("NEO4J_URI" == k) = false := by simpa using g1
  have e2 : ("NEO4J_USERNAME" == k) = false := by simpa using g2
  have e3 : ("NEO4J_PASSWORD" == k) = false := by simpa using g3
  have e4 : ("NEO4J_DATABASE" == k) = false := by simpa using g4
  have e5 : ("NEO4J_TRANSPORT" == k) = false := by simpa using g5
  have e6 : ("NEO4J_MCP_SERVER_HOST" == k) = false := by simpa using g6
  have e7 : ("NEO4J_MCP_SERVER_PORT" == k) = false := by simpa using g7
  have e8 : ("NEO4J_MCP_SERVER_PATH" == k) = false := by simpa using g8
  have e9 : ("NEO4J_API_KEY" == k) = false := by simpa using g9
  simp [start_server_env, env_updates, List.find?, e1, e2, e3, e4, e5, e6, e7, e8, e9]

/-! ## Claim theorems -/

/-- C1: given a prior configuration file holding non-empty `NEO4J_URI`,
`NEO4J_USERNAME` and `NEO4J_PASSWORD`, and an invoking process environment
that does not itself bind the datastore keys, a provisioning run writes a new
file whose datastore fields (and the database name, defaulted to `"neo4j"`
when absent) keep their prior values and whose `NEO4J_API_KEY` equals the
freshly generated credential of this run, which differs from whatever
credential (if any) the prior file held. -/
theorem provisioner_preserves_datastore_fields
    (api_key uri username password : String) (file ambient : EnvMap)
    (hambU : ambient "NEO4J_URI" = none)
    (hambN : ambient "NEO4J_USERNAME" = none)
    (hambP : ambient "NEO4J_PASSWORD" = none)
    (hambD : ambient "NEO4J_DATABASE" = none)
    (hU : file "NEO4J_URI" = some uri) (hUne : uri ≠ "")
    (hN : file "NEO4J_USERNAME" = some username) (hNne : username ≠ "")
    (hP : file "NEO4J_PASSWORD" = some password) (hPne : password ≠ "")
    (hfresh : file "NEO4J_API_KEY" ≠ some api_key) :
    ∃ nf, update_env_with_api_key api_key (some file) ambient = .wrote nf ∧
      lookupKV nf "NEO4J_URI" = some uri ∧
      lookupKV nf "NEO4J_USERNAME" = some username ∧
      lookupKV nf "NEO4J_PASSWORD" = some password ∧
      lookupKV nf "NEO4J_DATABASE" = some ((file "NEO4J_DATABASE").getD "neo4j") ∧
      lookupKV nf "NEO4J_API_KEY" = some api_key ∧
      lookupKV nf "NEO4J_API_KEY" ≠ file "NEO4J_API_KEY" := by
  refine ⟨writtenEnvFile uri username password
    ((file "NEO4J_DATABASE").getD "neo4j") api_key, ?_, lookupKV_written_uri ..,
    lookupKV_written_username .., lookupKV_written_password ..,
    lookupKV_written_database .., lookupKV_written_api .., ?_⟩
  · simp [update_env_with_api_key, mergedGetenv, hambU, hambN, hambP, hambD,
      hU, hN, hP, truthy, hUne, hNne, hPne]
  · rw [lookupKV_written_api]
    exact fun h => hfresh h.symm

theorem provisioner_preserves_datastore_fields_witness :
    ∃ nf, update_env_with_api_key "newkey" (some sampleFile) emptyEnv = .wrote nf ∧
      lookupKV nf "NEO4J_URI" = some "bolt://localhost:7687" ∧
      lookupKV nf "NEO4J_USERNAME" = some "neo4j" ∧
      lookupKV nf "NEO4J_PASSWORD" = some "pass" ∧
      lookupKV nf "NEO4J_DATABASE" = some ((sampleFile "NEO4J_DATABASE").getD "neo4j") ∧
      lookupKV nf "NEO4J_API_KEY" = some "newkey" ∧
      lookupKV nf "NEO4J_API_KEY" ≠ sampleFile "NEO4J_API_KEY" :=
  provisioner_preserves_datastore_fields "newkey" "bolt://localhost:7687" "neo4j"
    "pass" sampleFile emptyEnv rfl rfl rfl rfl (by decide) (by decide) (by decide)
    (by decide) (by decide) (by decide) (by decide)

/-- C2: given a prior configuration file from which one of the three required
datastore fields is missing (and an invoking process environment that does
not bind them either), the provisioner exits with code 1 (non-zero) and
writes no file, leaving the prior on-disk configuration unchanged. -/
theorem provisioner_aborts_on_missing_field
    (api_key : String) (file ambient : EnvMap)
    (hambU : ambient "NEO4J_URI" = none)
    (hambN : ambient "NEO4J_USERNAME" = none)
    (hambP : ambient "NEO4J_PASSWORD" = none)
    (hmissing : file "NEO4J_URI" = none ∨ file "NEO4J_USERNAME" = none ∨
      file "NEO4J_PASSWORD" = none) :
    update_env_with_api_key api_key (some file) ambient = .exited 1 ∧
    (∀ nf, update_env_with_api_key api_key (some file) ambient ≠ .wrote nf) ∧
    (1 : Nat) ≠ 0 := by
  have h : update_env_with_api_key api_key (some file) ambient = .exited 1 := by
    rcases hmissing with hm | hm | hm
    · simp [update_env_with_api_key, mergedGetenv, hambU, hm, truthy]
    · simp [update_env_with_api_key, mergedGetenv, hambN, hm, truthy]
    · simp [update_env_with_api_key, mergedGetenv, hambP, hm, truthy]
  exact ⟨h, fun nf hw => by rw [h] at hw; exact ProvisionResult.noConfusion hw, by decide⟩

theorem provisioner_aborts_on_missing_field_witness :
    update_env_with_api_key "newkey" (some c2File) emptyEnv = .exited 1 ∧
    (∀ nf, update_env_with_api_key "newkey" (some c2File) emptyEnv ≠ .wrote nf) ∧
    (1 : Nat) ≠ 0 :=
  provisioner_aborts_on_missing_field "newkey" c2File emptyEnv rfl rfl rfl
    (Or.inr (Or.inr (by decide)))

/-- C3 counterexample: the written file does not keep the prior values of
`NEO4J_MCP_SERVER_HOST`, `NEO4J_MCP_SERVER_PORT` or `NEO4J_MCP_SERVER_PATH`:
with a prior file carrying `0.0.0.0`, `9000` and `/other/`, the provisioner
writes `127.0.0.1`, `8001` and `/mcp/` instead (the template hardcodes
them). -/
theorem provisioner_drops_prior_server_settings :
    update_env_with_api_key "fresh" (some c3File) emptyEnv =
      .wrote (writtenEnvFile "bolt://db:7687" "neo4j" "pw" "neo4j" "fresh") ∧
    c3File "NEO4J_MCP_SERVER_PORT" = some "9000" ∧
    lookupKV (writtenEnvFile "bolt://db:7687" "neo4j" "pw" "neo4j" "fresh")
      "NEO4J_MCP_SERVER_PORT" = some "8001" ∧
    c3File "NEO4J_MCP_SERVER_HOST" = some "0.0.0.0" ∧
    lookupKV (writtenEnvFile "bolt://db:7687" "neo4j" "pw" "neo4j" "fresh")
      "NEO4J_MCP_SERVER_HOST" = some "127.0.0.1" ∧
    c3File "NEO4J_MCP_SERVER_PATH" = some "/other/" ∧
    lookupKV (writtenEnvFile "bolt://db:7687" "neo4j" "pw" "neo4j" "fresh")
      "NEO4J_MCP_SERVER_PATH" = some "/mcp/" := by decide

/-- C3 amended: the written file keeps the prior `NEO4J_URI`,
`NEO4J_USERNAME` and `NEO4J_PASSWORD`, defaults `NEO4J_DATABASE` to
`"neo4j"`, regenerates `NEO4J_API_KEY`, and fixes `NEO4J_TRANSPORT` to
`"http"`, `NEO4J_MCP_SERVER_HOST` to `"127.0.0.1"`, `NEO4J_MCP_SERVER_PORT`
to `"8001"` and `NEO4J_MCP_SERVER_PATH` to `"/mcp/"` regardless of their
prior values. -/
theorem provisioner_writes_fixed_server_settings
    (api_key uri username password : String) (file ambient : EnvMap)
    (hambU : ambient "NEO4J_URI" = none)
    (hambN : ambient "NEO4J_USERNAME" = none)
    (hambP : ambient "NEO4J_PASSWORD" = none)
    (hambD : ambient "NEO4J_DATABASE" = none)
    (hU : file "NEO4J_URI" = some uri) (hUne : uri ≠ "")
    (hN : file "NEO4J_USERNAME" = some username) (hNne : username ≠ "")
    (hP : file "NEO4J_PASSWORD" = some password) (hPne : password ≠ "") :
    update_env_with_api_key api_key (some file) ambient =
      .wrote (writtenEnvFile uri username password
        ((file "NEO4J_DATABASE").getD "neo4j") api_key) ∧
    (∀ u n p d a, lookupKV (writtenEnvFile u n p d a) "NEO4J_TRANSPORT" = some "http" ∧
      lookupKV (writtenEnvFile u n p d a) "NEO4J_MCP_SERVER_HOST" = some "127.0.0.1" ∧
      lookupKV (writtenEnvFile u n p d a) "NEO4J_MCP_SERVER_PORT" = some "8001" ∧
      lookupKV (writtenEnvFile u n p d a) "NEO4J_MCP_SERVER_PATH" = some "/mcp/" ∧
      lookupKV (writtenEnvFile u n p d a) "NEO4J_API_KEY" = some a) := by
  constructor
  · simp [update_env_with_api_key, mergedGetenv, hambU, hambN, hambP, hambD,
      hU, hN, hP, truthy, hUne, hNne, hPne]
  · intro u n p d a
    refine ⟨?_, ?_, ?_, ?_, lookupKV_written_api ..⟩ <;>
      simp [lookupKV, writtenEnvFile, List.find?]

theorem provisioner_writes_fixed_server_settings_witness :
    update_env_with_api_key "fresh2" (some c3File) emptyEnv =
      .wrote (writtenEnvFile "bolt://db:7687" "neo4j" "pw"
        ((c3File "NEO4J_DATABASE").getD "neo4j") "fresh2") :=
  (provisioner_writes_fixed_server_settings "fresh2" "bolt://db:7687" "neo4j" "pw"
    c3File emptyEnv rfl rfl rfl rfl (by decide) (by decide) (by decide) (by decide)
    (by decide) (by decide)).1

/-- C4: in the containerized launch, a datastore URI without a loopback
reference is injected unchanged; a URI with a loopback reference is injected
with `localhost` and `127.0.0.1` rewritten to `host.docker.internal`; in
particular `bolt://localhost:7687` becomes
`bolt://host.docker.internal:7687`. -/
theorem docker_uri_loopback_rewrite :
    (∀ u, hasLoopbackRef u = false → rewriteUriForDocker (some u) = some u) ∧
    rewriteUriForDocker (some "bolt://localhost:7687") =
      some "bolt://host.docker.internal:7687" ∧
    (∀ u, hasLoopbackRef u = true → rewriteUriForDocker (some u) =
      some (strReplace (strReplace u "localhost" "host.docker.internal")
        "127.0.0.1" "host.docker.internal")) := by
  refine ⟨?_, by decide, ?_⟩
  · intro u h
    simp [rewriteUriForDocker, h]
  · intro u h
    simp [rewriteUriForDocker, h]

theorem docker_uri_loopback_rewrite_witness :
    rewriteUriForDocker (some "neo4j+s://abc.databases.neo4j.io") =
      some "neo4j+s://abc.databases.neo4j.io" ∧
    rewriteUriForDocker (some "bolt://127.0.0.1:7687") =
      some (strReplace (strReplace "bolt://127.0.0.1:7687" "localhost"
        "host.docker.internal") "127.0.0.1" "host.docker.internal") :=
  ⟨docker_uri_loopback_rewrite.1 _ (by decide),
   docker_uri_loopback_rewrite.2.2 _ (by decide)⟩

/-- C5: the probe groups the top-level schema entries by the `type`
discriminator (a key is in the node group exactly when its entry has type
`"node"`, and in the relationship group exactly when it has type
`"relationship"`), and on the spec's example result it reports exactly one
node type (`Person`, 1 property, count 5) and one relationship type
(`KNOWS`, 0 properties, count 2). -/
theorem probe_schema_summary :
    (∀ schema : List (String × SchemaEntry), ∀ k : String,
      (k ∈ node_types schema ↔ ∃ e, (k, e) ∈ schema ∧ e.type? = some "node") ∧
      (k ∈ rel_types schema ↔ ∃ e, (k, e) ∈ schema ∧ e.type? = some "relationship")) ∧
    node_types exampleSchema = ["Person"] ∧
    rel_types exampleSchema = ["KNOWS"] ∧
    (node_types exampleSchema).length = 1 ∧
    (rel_types exampleSchema).length = 1 ∧
    ((exampleSchema.find? (fun p => p.1 == "Person")).map
      (fun p => entrySummary p.2)) = some (1, some 5) ∧
    ((exampleSchema.find? (fun p => p.1 == "KNOWS")).map
      (fun p => entrySummary p.2)) = some (0, some 2) := by
  refine ⟨?_, by decide, by decide, by decide, by decide, by decide, by decide⟩
  intro schema k
  constructor
  · simp only [node_types, List.mem_map, List.mem_filter]
    constructor
    · rintro ⟨⟨k', e⟩, ⟨hmem, hty⟩, rfl⟩
      exact ⟨e, hmem, by simpa using hty⟩
    · rintro ⟨e, hmem, hty⟩
      exact ⟨(k, e), ⟨hmem, by simpa using hty⟩, rfl⟩
  · simp only [rel_types, List.mem_map, List.mem_filter]
    constructor
    · rintro ⟨⟨k', e⟩, ⟨hmem, hty⟩, rfl⟩
      exact ⟨e, hmem, by simpa using hty⟩
    · rintro ⟨e, hmem, hty⟩
      exact ⟨(k, e), ⟨hmem, by simpa using hty⟩, rfl⟩

/-- C6: the probe's local `main` returns before any transport or session is
constructed when the configuration file does not exist, or when
`NEO4J_API_KEY` is absent from it (and from the invoking process
environment). -/
theorem probe_returns_before_network
    (ambient file : EnvMap)
    (hamb : ambient "NEO4J_API_KEY" = none) :
    probe_main none ambient = .earlyReturn ∧
    (file "NEO4J_API_KEY" = none → probe_main (some file) ambient = .earlyReturn) := by
  refine ⟨rfl, fun hf => ?_⟩
  simp [probe_main, mergedGetenv, hamb, hf, truthy]

theorem probe_returns_before_network_witness :
    probe_main none emptyEnv = .earlyReturn ∧
    probe_main (some c3File) emptyEnv = .earlyReturn :=
  ⟨(probe_returns_before_network emptyEnv c3File rfl).1,
   (probe_returns_before_network emptyEnv c3File rfl).2 rfl⟩

/-- C7: the environment of the locally spawned server is the process
environment (after the non-overriding `load_dotenv` merge) overlaid with the
configuration mapping: `NEO4J_API_KEY` carries exactly the credential
generated in this run, every configuration key whose `os.getenv` value is
absent is skipped so the inherited value is kept, every non-absent
configuration key carries the exact overlay value, and every other key is
untouched. -/
theorem local_launch_env_overlay (api_key : String) (ambient file : EnvMap) :
    start_server_env api_key ambient file "NEO4J_API_KEY" = some api_key ∧
    (∀ k, k ≠ "NEO4J_API_KEY" →
      start_server_env api_key ambient file k = mergedGetenv ambient file k) ∧
    (∀ k, k ∈ configFileKeys → mergedGetenv ambient file k = none →
      start_server_env api_key ambient file k = mergedGetenv ambient file k) ∧
    (∀ k v, k ∈ configFileKeys → mergedGetenv ambient file k = some v →
      start_server_env api_key ambient file k = some v) := by
  refine ⟨?_, fun k hk => start_server_env_other api_key ambient file k hk, ?_, ?_⟩
  · simp [start_server_env, env_updates, List.find?]
  · intro k hmem _
    have hk : k ≠ "NEO4J_API_KEY" := by
      revert hmem
      simp only [configFileKeys, List.mem_cons, List.not_mem_nil]
      rintro (rfl | rfl | rfl | rfl | rfl | rfl | rfl | rfl | h) <;> simp_all
    exact start_server_env_other api_key ambient file k hk
  · intro k v hmem hv
    have hk : k ≠ "NEO4J_API_KEY" := by
      revert hmem
      simp only [configFileKeys, List.mem_cons, List.not_mem_nil]
      rintro (rfl | rfl | rfl | rfl | rfl | rfl | rfl | rfl | h) <;> simp_all
    rw [start_server_env_other api_key ambient file k hk, hv]

theorem local_launch_env_overlay_witness :
    start_server_env "genkey" emptyEnv sampleFile "NEO4J_API_KEY" = some "genkey" ∧
    start_server_env "genkey" emptyEnv sampleFile "NEO4J_URI" =
      some "bolt://localhost:7687" ∧
    start_server_env "genkey" emptyEnv sampleFile "PATH" =
      mergedGetenv emptyEnv sampleFile "PATH" :=
  ⟨(local_launch_env_overlay "genkey" emptyEnv sampleFile).1,
   (local_launch_env_overlay "genkey" emptyEnv sampleFile).2.2.2
     "NEO4J_URI" "bolt://localhost:7687" (by decide) (by decide),
   (local_launch_env_overlay "genkey" emptyEnv sampleFile).2.1 "PATH" (by decide)⟩

/-- C8: the local launcher's blocking wait ends only when the child exits or
an interrupt arrives; on interrupt it reports graceful shutdown and the
process exit code is 0 (indeed the local launcher always ends with exit
code 0). -/
theorem local_launcher_interrupt_graceful :
    start_server_wait .interrupted = (0, true) ∧
    (∀ ev, (start_server_wait ev).1 = 0) := by
  refine ⟨rfl, fun ev => ?_⟩
  cases ev <;> rfl

/-- C9 counterexample: a build step failing with child exit code 2 makes the
script exit with code 1, not 2 — the child's code is not propagated
verbatim. -/
theorem docker_build_failure_exit_code_not_propagated :
    start_server_docker_flow (.calledProcessError 2) .ok = .exited 1 ∧
    processExitCode (start_server_docker_flow (.calledProcessError 2) .ok) = 1 ∧
    (1 : Nat) ≠ 2 := by decide

/-- C9 amended: a build failure aborts with exit code 1 whatever the child's
returncode (which is only reported in the message); a missing container
runtime aborts with the fixed exit code 1 and an install hint; a run-step
failure raises an uncaught `CalledProcessError`, terminating the interpreter
with exit code 1. -/
theorem docker_launch_error_exit_codes (c : Nat) :
    (∀ r, start_server_docker_flow (.calledProcessError c) r = .exited 1) ∧
    (∀ r, start_server_docker_flow .fileNotFoundError r = .exited 1) ∧
    start_server_docker_flow .ok (.calledProcessError c) =
      .raisedCalledProcessError c ∧
    processExitCode (start_server_docker_flow .ok (.calledProcessError c)) = 1 := by
  exact ⟨fun r => rfl, fun r => rfl, rfl, rfl⟩

/-- C10: the provisioner's required-field validation reads the merged view in
which a variable set in the invoking process environment shadows the file:
when the three required keys are truthy in the merged environment the file is
written with the merged (environment-first) values, when one of them is not
the process exits with code 1, and any key set in the process environment
takes priority over the file in the merged view. -/
theorem provisioner_validates_merged_environment
    (api_key : String) (ambient file : EnvMap) :
    ((truthy (mergedGetenv ambient file "NEO4J_URI") &&
      truthy (mergedGetenv ambient file "NEO4J_USERNAME") &&
      truthy (mergedGetenv ambient file "NEO4J_PASSWORD")) = true →
      ∃ nf, update_env_with_api_key api_key (some file) ambient = .wrote nf ∧
        lookupKV nf "NEO4J_URI" = mergedGetenv ambient file "NEO4J_URI" ∧
        lookupKV nf "NEO4J_USERNAME" = mergedGetenv ambient file "NEO4J_USERNAME" ∧
        lookupKV nf "NEO4J_PASSWORD" = mergedGetenv ambient file "NEO4J_PASSWORD") ∧
    ((truthy (mergedGetenv ambient file "NEO4J_URI") &&
      truthy (mergedGetenv ambient file "NEO4J_USERNAME") &&
      truthy (mergedGetenv ambient file "NEO4J_PASSWORD")) = false →
      update_env_with_api_key api_key (some file) ambient = .exited 1) ∧
    (∀ k v, ambient k = some v → mergedGetenv ambient file k = some v) := by
  refine ⟨?_, ?_, ?_⟩
  · intro h
    obtain ⟨⟨hu, hn⟩, hp⟩ : (truthy (mergedGetenv ambient file "NEO4J_URI") = true ∧
        truthy (mergedGetenv ambient file "NEO4J_USERNAME") = true) ∧
        truthy (mergedGetenv ambient file "NEO4J_PASSWORD") = true := by
      simpa [Bool.and_eq_true] using h
    obtain ⟨u, hu', _⟩ := (truthy_eq_true_iff _).mp hu
    obtain ⟨n, hn', _⟩ := (truthy_eq_true_iff _).mp hn
    obtain ⟨p, hp', _⟩ := (truthy_eq_true_iff _).mp hp
    rw [hu'] at hu
    rw [hn'] at hn
    rw [hp'] at hp
    refine ⟨writtenEnvFile u n p
      ((mergedGetenv ambient file "NEO4J_DATABASE").getD "neo4j") api_key, ?_,
      by rw [lookupKV_written_uri, hu'],
      by rw [lookupKV_written_username, hn'],
      by rw [lookupKV_written_password, hp']⟩
    simp [update_env_with_api_key, hu, hn, hp, hu', hn', hp']
  · intro h
    simp only [update_env_with_api_key]
    rw [if_neg]
    simp [h]
  · intro k v hk
    simp [mergedGetenv, hk]

theorem provisioner_validates_merged_environment_witness :
    mergedGetenv c10Ambient c10File "NEO4J_URI" = some "bolt://from-env:7687" ∧
    (∃ nf, update_env_with_api_key "k2" (some c10File) c10Ambient = .wrote nf ∧
      lookupKV nf "NEO4J_URI" = mergedGetenv c10Ambient c10File "NEO4J_URI" ∧
      lookupKV nf "NEO4J_USERNAME" = mergedGetenv c10Ambient c10File "NEO4J_USERNAME" ∧
      lookupKV nf "NEO4J_PASSWORD" = mergedGetenv c10Ambient c10File "NEO4J_PASSWORD") :=
  ⟨by decide,
   (provisioner_validates_merged_environment "k2" c10Ambient c10File).1 (by decide)⟩
